import Mathlib

/-
Verification of the XPBD constraint solver core of `bevy_xpbd`
(`src/constraints/edge.rs`, `src/constraints/isometric_bending.rs`,
`src/constraints/volume.rs`).

Scalars (`f32` in the source) are modelled as the real numbers; `glam::Vec3`
is a triple of reals; `bevy::Entity` identifiers are opaque naturals.
Each Rust `solve(&mut self, bodies, dt)` mutates the body views in place and
never mutates `self`; it is embedded as a pure function from the incoming
body views to the outgoing body views.
-/

noncomputable section

/-- Scalar type of the source (`f32`), modelled as ℝ. -/
abbrev Scalar := ℝ

/-- Body identifier (`bevy::Entity`), modelled as an opaque natural number. -/
abbrev Entity := ℕ

/-- 3D vector (`glam::Vec3`). -/
structure Vec3 where
  x : Scalar
  y : Scalar
  z : Scalar

namespace Vec3

instance : Zero Vec3 := ⟨⟨0, 0, 0⟩⟩

instance : Add Vec3 := ⟨fun a b => ⟨a.x + b.x, a.y + b.y, a.z + b.z⟩⟩

instance : Sub Vec3 := ⟨fun a b => ⟨a.x - b.x, a.y - b.y, a.z - b.z⟩⟩

/-- `f32 * Vec3` (componentwise scaling, as in glam). -/
instance : HMul Scalar Vec3 Vec3 := ⟨fun s v => ⟨s * v.x, s * v.y, s * v.z⟩⟩

/-- `Vec3 * f32` (componentwise scaling, as in glam). -/
instance : HMul Vec3 Scalar Vec3 := ⟨fun v s => ⟨v.x * s, v.y * s, v.z * s⟩⟩

/-- `Vec3 / f32` (componentwise division, as in glam). -/
instance : HDiv Vec3 Scalar Vec3 := ⟨fun v s => ⟨v.x / s, v.y / s, v.z / s⟩⟩

/-- `glam::Vec3::dot`. -/
def dot (a b : Vec3) : Scalar := a.x * b.x + a.y * b.y + a.z * b.z

/-- `glam::Vec3::cross` (right-handed). -/
def cross (a b : Vec3) : Vec3 :=
  ⟨a.y * b.z - a.z * b.y, a.z * b.x - a.x * b.z, a.x * b.y - a.y * b.x⟩

/-- `glam::Vec3::length_squared`. -/
def length_squared (v : Vec3) : Scalar := v.dot v

/-- `glam::Vec3::length`. -/
def length (v : Vec3) : Scalar := Real.sqrt v.length_squared

/-- `glam::Vec3::distance`: `(self - rhs).length()`. -/
def distance (a b : Vec3) : Scalar := (a - b).length

/-- `glam::Vec3::X`, the positive x axis. -/
def X : Vec3 := ⟨1, 0, 0⟩

end Vec3

/-- Modelled from the spec: the body view (`RigidBodyQueryItem`, whose
definition lives outside the provided sources) exposes, per body, the current
position (`current_position()`), the inverse mass (`inverse_mass.0`) and the
pending translation accumulator (`accumulated_translation.0`). -/
structure RigidBodyQueryItem where
  current_position : Vec3
  inverse_mass : Scalar
  accumulated_translation : Vec3

/-- `EdgeConstraint` (src/constraints/edge.rs). -/
structure EdgeConstraint where
  entity1 : Entity
  entity2 : Entity
  rest_length : Scalar
  compliance : Scalar

namespace EdgeConstraint

/-- `EdgeConstraint::solve` (src/constraints/edge.rs, lines 38-62).
The `warn!` log on the zero-length branch is a side effect with no
bearing on the computed state and is not modelled. -/
def solve (c : EdgeConstraint) (body1 body2 : RigidBodyQueryItem) (dt : Scalar) :
    RigidBodyQueryItem × RigidBodyQueryItem :=
  let inv_mass1 := body1.inverse_mass
  let inv_mass2 := body2.inverse_mass
  let w := inv_mass1 + inv_mass2
  if w = 0 then (body1, body2) else
  let alpha := c.compliance / (dt * dt)
  let p1 := body1.current_position
  let p2 := body2.current_position
  let delta := p2 - p1
  let distance := delta.length
  let direction := if distance = 0 then Vec3.X else delta / distance
  let residual := -(distance - c.rest_length) / (w + alpha)
  ({ body1 with accumulated_translation :=
      body1.accumulated_translation - direction * residual * inv_mass1 },
   { body2 with accumulated_translation :=
      body2.accumulated_translation + direction * residual * inv_mass2 })

/-- `EdgeConstraint::new` (src/constraints/edge.rs, lines 85-94). -/
def new (entity1 : Entity) (position1 : Vec3) (entity2 : Entity) (position2 : Vec3) :
    EdgeConstraint :=
  let rest_length := position1.distance position2
  { entity1 := entity1, entity2 := entity2, rest_length := rest_length, compliance := 0.1 }

/-- `EdgeConstraint::with_compliance`. -/
def with_compliance (c : EdgeConstraint) (compliance : Scalar) : EdgeConstraint :=
  { c with compliance := compliance }

/-- `EdgeConstraint::with_rest_length`. -/
def with_rest_length (c : EdgeConstraint) (rest_length : Scalar) : EdgeConstraint :=
  { c with rest_length := rest_length }

/-- `EdgeConstraint::map_entities` (src/constraints/edge.rs, lines 108-113).
Modelled from the spec: `EntityMapper::get_or_reserve` is external to the
provided sources; the spec describes it as an identifier-translation function
from old to new identifiers, modelled here as `f`. -/
def map_entities (c : EdgeConstraint) (f : Entity → Entity) : EdgeConstraint :=
  { c with entity1 := f c.entity1, entity2 := f c.entity2 }

end EdgeConstraint

/-- `VolumeConstraint` (src/constraints/volume.rs). -/
structure VolumeConstraint where
  entity1 : Entity
  entity2 : Entity
  entity3 : Entity
  entity4 : Entity
  rest_volume : Scalar
  compliance : Scalar

namespace VolumeConstraint

/-- `VolumeConstraint::volume` (src/constraints/volume.rs, lines 159-164):
signed tetrahedron volume `((p2-p1) x (p3-p1)) . (p4-p1) / 6`. -/
def volume (p1 p2 p3 p4 : Vec3) : Scalar :=
  let v1 := p2 - p1
  let v2 := p3 - p1
  let v3 := p4 - p1
  (v1.cross v2).dot v3 / 6

/-- `VolumeConstraint::solve` (src/constraints/volume.rs, lines 44-86).
The `id_views` array lists, in source order, the tuples
`(bodies[0].inverse_mass, p2, p3, p4)`, `(bodies[1].inverse_mass, p1, p4, p3)`,
`(bodies[3].inverse_mass, p1, p3, p2)`, `(bodies[2].inverse_mass, p1, p2, p4)`;
each yields `gradient = (pb - pa).cross(pc - pa) / 6`, and `w` sums
`inverse_mass * gradient.length_squared()` over the tuples.  The subsequent
`enumerate` loop applies `gradients[index]` to `bodies[index]` positionally,
with `bodies[index].inverse_mass`.  The `push.is_nan()` panic guard tests a
float predicate that is identically false over the exact reals, so the panic
branch is unreachable in this embedding and the loop always completes. -/
def solve (c : VolumeConstraint) (body1 body2 body3 body4 : RigidBodyQueryItem)
    (dt : Scalar) :
    RigidBodyQueryItem × RigidBodyQueryItem × RigidBodyQueryItem × RigidBodyQueryItem :=
  let alpha := c.compliance / (dt * dt)
  let p1 := body1.current_position
  let p2 := body2.current_position
  let p3 := body3.current_position
  let p4 := body4.current_position
  let gradient0 := (p3 - p2).cross (p4 - p2) / (6 : Scalar)
  let gradient1 := (p4 - p1).cross (p3 - p1) / (6 : Scalar)
  let gradient2 := (p3 - p1).cross (p2 - p1) / (6 : Scalar)
  let gradient3 := (p2 - p1).cross (p4 - p1) / (6 : Scalar)
  let w := body1.inverse_mass * gradient0.length_squared
    + body2.inverse_mass * gradient1.length_squared
    + body4.inverse_mass * gradient2.length_squared
    + body3.inverse_mass * gradient3.length_squared
  if w = 0 then (body1, body2, body3, body4) else
  let vol := volume p1 p2 p3 p4
  let residual := -(vol - c.rest_volume) / (w + alpha)
  ({ body1 with accumulated_translation :=
      body1.accumulated_translation + gradient0 * residual * body1.inverse_mass },
   { body2 with accumulated_translation :=
      body2.accumulated_translation + gradient1 * residual * body2.inverse_mass },
   { body3 with accumulated_translation :=
      body3.accumulated_translation + gradient2 * residual * body3.inverse_mass },
   { body4 with accumulated_translation :=
      body4.accumulated_translation + gradient3 * residual * body4.inverse_mass })

/-- `VolumeConstraint::new` (src/constraints/volume.rs, lines 126-157).
The `assert!(rest_volume > 0.0)` panic is modelled as returning `none`. -/
def new (entity1 : Entity) (position1 : Vec3) (entity2 : Entity) (position2 : Vec3)
    (entity3 : Entity) (position3 : Vec3) (entity4 : Entity) (position4 : Vec3) :
    Option VolumeConstraint :=
  let rest_volume := volume position1 position2 position3 position4
  if rest_volume < 0 then
    -- Swap entity2 and entity3 if the volume is negative
    let rest_volume := volume position1 position3 position2 position4
    if rest_volume > 0 then
      some { entity1 := entity1, entity2 := entity3, entity3 := entity2,
             entity4 := entity4, rest_volume := rest_volume, compliance := 0 }
    else none
  else
    if rest_volume > 0 then
      some { entity1 := entity1, entity2 := entity2, entity3 := entity3,
             entity4 := entity4, rest_volume := rest_volume, compliance := 0 }
    else none

/-- `VolumeConstraint::with_compliance`. -/
def with_compliance (c : VolumeConstraint) (compliance : Scalar) : VolumeConstraint :=
  { c with compliance := compliance }

/-- `VolumeConstraint::with_rest_volume`. -/
def with_rest_volume (c : VolumeConstraint) (rest_volume : Scalar) : VolumeConstraint :=
  { c with rest_volume := rest_volume }

/-- `VolumeConstraint::map_entities` (src/constraints/volume.rs, lines 178-185).
Modelled from the spec: `EntityMapper::get_or_reserve` is external to the
provided sources, modelled as the identifier-translation function `f`. -/
def map_entities (c : VolumeConstraint) (f : Entity → Entity) : VolumeConstraint :=
  { c with entity1 := f c.entity1, entity2 := f c.entity2,
           entity3 := f c.entity3, entity4 := f c.entity4 }

end VolumeConstraint

/-- `glam::Vec4`, used only for the cotangent weight vector `k`. -/
abbrev Vec4 := Fin 4 → Scalar

/-- `glam::Mat4`, indexed as `m row col`, matching the source's
`mat.row(i)[j]` access. -/
abbrev Mat4 := Fin 4 → Fin 4 → Scalar

/-- `outer_product` (src/constraints/isometric_bending.rs, lines 199-206):
`Mat4::from_cols` is column-major, so the entry at row `i`, column `j` of
`outer_product(v0, v1)` is `v0[j] * v1[i]`. -/
def outer_product (v0 v1 : Vec4) : Mat4 := fun i j => v0 j * v1 i

/-- `IsometricBendingConstraint` (src/constraints/isometric_bending.rs). -/
structure IsometricBendingConstraint where
  entity1 : Entity
  entity2 : Entity
  entity3 : Entity
  entity4 : Entity
  initial_bending_energy : Mat4
  compliance : Scalar

namespace IsometricBendingConstraint

/-- The local cotangent closure `cot` inside `get_bending_energy`:
`v0.dot(v1) / v0.cross(v1).length()`. -/
def cot (v0 v1 : Vec3) : Scalar := v0.dot v1 / (v0.cross v1).length

/-- `IsometricBendingConstraint::get_bending_energy`
(src/constraints/isometric_bending.rs, lines 142-162). -/
def get_bending_energy (pa pb pc pd : Vec3) : Mat4 :=
  let e0 := pb - pa
  let e1 := pd - pb
  let e2 := pa - pd
  let e3 := pc - pa
  let e4 := pb - pc
  let area_left := (e0.cross (pd - pa)).length * 0.5
  let area_right := (e0.cross e3).length * 0.5
  let area := area_left + area_right
  let c01 := cot e0 e1
  let c02 := cot e0 e2
  let c03 := cot e0 e3
  let c04 := cot e0 e4
  let k : Vec4 := ![c01 + c04, c02 + c03, -c01 - c02, -c03 - c04]
  fun i j => outer_product k k i j * (3 / area)

/-- `IsometricBendingConstraint::calculate_constraint_value`
(src/constraints/isometric_bending.rs, lines 164-179):
`(sum over i, j of Q[i][j] * particles[i].dot(particles[j])) / 2`. -/
def calculate_constraint_value (c : IsometricBendingConstraint)
    (pa pb pc pd : Vec3) : Scalar :=
  let particles : Fin 4 → Vec3 := ![pa, pb, pc, pd]
  (∑ i : Fin 4, ∑ j : Fin 4,
    c.initial_bending_energy i j * (particles i).dot (particles j)) / 2

/-- `IsometricBendingConstraint::calculate_gradient`
(src/constraints/isometric_bending.rs, lines 181-190): the inner loop over
`j = 0..4` accumulating `Q[i][j] * particles[j]`, unrolled. -/
def calculate_gradient (c : IsometricBendingConstraint)
    (pa pb pc pd : Vec3) : Fin 4 → Vec3 :=
  let particles : Fin 4 → Vec3 := ![pa, pb, pc, pd]
  fun i =>
    c.initial_bending_energy i 0 * particles 0
      + c.initial_bending_energy i 1 * particles 1
      + c.initial_bending_energy i 2 * particles 2
      + c.initial_bending_energy i 3 * particles 3

/-- `IsometricBendingConstraint::solve`
(src/constraints/isometric_bending.rs, lines 52-87). -/
def solve (c : IsometricBendingConstraint)
    (body1 body2 body3 body4 : RigidBodyQueryItem) (dt : Scalar) :
    RigidBodyQueryItem × RigidBodyQueryItem × RigidBodyQueryItem × RigidBodyQueryItem :=
  let alpha := c.compliance / (dt * dt)
  let pa := body1.current_position
  let pb := body2.current_position
  let pc := body3.current_position
  let pd := body4.current_position
  let ima := body1.inverse_mass
  let imb := body2.inverse_mass
  let imc := body3.inverse_mass
  let imd := body4.inverse_mass
  let energy := c.calculate_constraint_value pa pb pc pd
  if energy < 1e-12 then (body1, body2, body3, body4) else
  let grad := c.calculate_gradient pa pb pc pd
  let sum_normal_grad := ima * (grad 0).length_squared + imb * (grad 1).length_squared
    + imc * (grad 2).length_squared + imd * (grad 3).length_squared
  if |sum_normal_grad| < 1e-9 then (body1, body2, body3, body4) else
  let s := energy / sum_normal_grad
  ({ body1 with accumulated_translation :=
      body1.accumulated_translation + s * ima * grad 0 * alpha },
   { body2 with accumulated_translation :=
      body2.accumulated_translation + s * imb * grad 1 * alpha },
   { body3 with accumulated_translation :=
      body3.accumulated_translation + s * imc * grad 2 * alpha },
   { body4 with accumulated_translation :=
      body4.accumulated_translation + s * imd * grad 3 * alpha })

/-- `IsometricBendingConstraint::new`
(src/constraints/isometric_bending.rs, lines 119-139). -/
def new (entity1 : Entity) (position1 : Vec3) (entity2 : Entity) (position2 : Vec3)
    (entity3 : Entity) (position3 : Vec3) (entity4 : Entity) (position4 : Vec3) :
    IsometricBendingConstraint :=
  { entity1 := entity1, entity2 := entity2, entity3 := entity3, entity4 := entity4,
    initial_bending_energy := get_bending_energy position1 position2 position3 position4,
    compliance := 0 }

/-- `IsometricBendingConstraint::with_compliance`. -/
def with_compliance (c : IsometricBendingConstraint) (compliance : Scalar) :
    IsometricBendingConstraint :=
  { c with compliance := compliance }

/-- `IsometricBendingConstraint::map_entities`
(src/constraints/isometric_bending.rs, lines 208-215).
Modelled from the spec: `EntityMapper::get_or_reserve` is external to the
provided sources, modelled as the identifier-translation function `f`. -/
def map_entities (c : IsometricBendingConstraint) (f : Entity → Entity) :
    IsometricBendingConstraint :=
  { c with entity1 := f c.entity1, entity2 := f c.entity2,
           entity3 := f c.entity3, entity4 := f c.entity4 }

end IsometricBendingConstraint

/-
Concrete scenario data used by the claim theorems and witnesses.
-/

/-- The distance-constraint end-to-end scenario: `rest_length = 1`,
`compliance = 0`. -/
def edgeScenarioC : EdgeConstraint :=
  { entity1 := 0, entity2 := 1, rest_length := 1, compliance := 0 }

/-- Scenario body at `(0,0,0)` with inverse mass 1 and a zeroed accumulator. -/
def edgeScenarioB1 : RigidBodyQueryItem :=
  { current_position := ⟨0, 0, 0⟩, inverse_mass := 1, accumulated_translation := 0 }

/-- Scenario body at `(2,0,0)` with inverse mass 1 and a zeroed accumulator. -/
def edgeScenarioB2 : RigidBodyQueryItem :=
  { current_position := ⟨2, 0, 0⟩, inverse_mass := 1, accumulated_translation := 0 }

/-- Unit-tetrahedron scenario bodies: apex at the origin and at the three axis
unit points, all of inverse mass 1, zeroed accumulators. -/
def tetraB1 : RigidBodyQueryItem :=
  { current_position := ⟨0, 0, 0⟩, inverse_mass := 1, accumulated_translation := 0 }

/-- Second unit-tetrahedron scenario body, at `(1,0,0)`. -/
def tetraB2 : RigidBodyQueryItem :=
  { current_position := ⟨1, 0, 0⟩, inverse_mass := 1, accumulated_translation := 0 }

/-- Third unit-tetrahedron scenario body, at `(0,1,0)`. -/
def tetraB3 : RigidBodyQueryItem :=
  { current_position := ⟨0, 1, 0⟩, inverse_mass := 1, accumulated_translation := 0 }

/-- Fourth unit-tetrahedron scenario body, at `(0,0,1)`. -/
def tetraB4 : RigidBodyQueryItem :=
  { current_position := ⟨0, 0, 1⟩, inverse_mass := 1, accumulated_translation := 0 }

/-- A volume constraint over the unit tetrahedron whose rest volume `1/12` is
half the current volume `1/6`, with `compliance = 0`. -/
def tetraC : VolumeConstraint :=
  { entity1 := 0, entity2 := 1, entity3 := 2, entity4 := 3,
    rest_volume := 1 / 12, compliance := 0 }

/-- A concrete baked energy matrix for the bending-solve witness: `Q[0][0] = 2`
and every other entry zero. -/
def bendQ : Mat4 := fun i j => if i = 0 ∧ j = 0 then 2 else 0

/-- A bending constraint with the concrete matrix `bendQ` and compliance 1. -/
def bendC : IsometricBendingConstraint :=
  { entity1 := 0, entity2 := 1, entity3 := 2, entity4 := 3,
    initial_bending_energy := bendQ, compliance := 1 }

/-- Witness body at `(1,0,0)`, inverse mass 1, zeroed accumulator. -/
def bendB1 : RigidBodyQueryItem :=
  { current_position := ⟨1, 0, 0⟩, inverse_mass := 1, accumulated_translation := 0 }

/-- Witness body at the origin, inverse mass 1, zeroed accumulator. -/
def bendB0 : RigidBodyQueryItem :=
  { current_position := ⟨0, 0, 0⟩, inverse_mass := 1, accumulated_translation := 0 }

/-
Theorems.  First, componentwise lemmas for the `Vec3` operations, then the
claim theorems.
-/

namespace Vec3

@[ext] theorem ext {a b : Vec3} (hx : a.x = b.x) (hy : a.y = b.y) (hz : a.z = b.z) :
    a = b := by
  cases a
  cases b
  simp_all

@[simp] theorem zero_x : (0 : Vec3).x = 0 := rfl

@[simp] theorem zero_y : (0 : Vec3).y = 0 := rfl

@[simp] theorem zero_z : (0 : Vec3).z = 0 := rfl

@[simp] theorem add_x (a b : Vec3) : (a + b).x = a.x + b.x := rfl

@[simp] theorem add_y (a b : Vec3) : (a + b).y = a.y + b.y := rfl

@[simp] theorem add_z (a b : Vec3) : (a + b).z = a.z + b.z := rfl

@[simp] theorem sub_x (a b : Vec3) : (a - b).x = a.x - b.x := rfl

@[simp] theorem sub_y (a b : Vec3) : (a - b).y = a.y - b.y := rfl

@[simp] theorem sub_z (a b : Vec3) : (a - b).z = a.z - b.z := rfl

@[simp] theorem smul_x (s : Scalar) (v : Vec3) : (s * v).x = s * v.x := rfl

@[simp] theorem smul_y (s : Scalar) (v : Vec3) : (s * v).y = s * v.y := rfl

@[simp] theorem smul_z (s : Scalar) (v : Vec3) : (s * v).z = s * v.z := rfl

@[simp] theorem muls_x (v : Vec3) (s : Scalar) : (v * s).x = v.x * s := rfl

@[simp] theorem muls_y (v : Vec3) (s : Scalar) : (v * s).y = v.y * s := rfl

@[simp] theorem muls_z (v : Vec3) (s : Scalar) : (v * s).z = v.z * s := rfl

@[simp] theorem divs_x (v : Vec3) (s : Scalar) : (v / s).x = v.x / s := rfl

@[simp] theorem divs_y (v : Vec3) (s : Scalar) : (v / s).y = v.y / s := rfl

@[simp] theorem divs_z (v : Vec3) (s : Scalar) : (v / s).z = v.z / s := rfl

@[simp] theorem X_x : X.x = 1 := rfl

@[simp] theorem X_y : X.y = 0 := rfl

@[simp] theorem X_z : X.z = 0 := rfl

theorem length_squared_nonneg (v : Vec3) : 0 ≤ v.length_squared := by
  simp only [length_squared, dot]
  nlinarith [mul_self_nonneg v.x, mul_self_nonneg v.y, mul_self_nonneg v.z]

@[simp] theorem length_zero : (0 : Vec3).length = 0 := by
  simp [length, length_squared, dot]

@[simp] theorem vec_mul_zero (v : Vec3) : v * (0 : Scalar) = 0 := by
  show Vec3.mk _ _ _ = _
  simp only [mul_zero]
  rfl

@[simp] theorem zero_mul_vec (v : Vec3) : (0 : Scalar) * v = 0 := by
  show Vec3.mk _ _ _ = _
  simp only [zero_mul]
  rfl

@[simp] theorem smul_zero_vec (s : Scalar) : s * (0 : Vec3) = 0 := by
  show Vec3.mk _ _ _ = _
  simp only [zero_x, zero_y, zero_z, mul_zero]
  rfl

@[simp] theorem zero_vec_mul (s : Scalar) : (0 : Vec3) * s = 0 := by
  show Vec3.mk _ _ _ = _
  simp only [zero_x, zero_y, zero_z, zero_mul]
  rfl

@[simp] theorem vsub_zero (a : Vec3) : a - (0 : Vec3) = a := by
  show Vec3.mk _ _ _ = _
  cases a
  simp only [zero_x, zero_y, zero_z, sub_zero]

@[simp] theorem vadd_zero (a : Vec3) : a + (0 : Vec3) = a := by
  show Vec3.mk _ _ _ = _
  cases a
  simp only [zero_x, zero_y, zero_z, add_zero]

@[simp] theorem vsub_self (a : Vec3) : a - a = 0 := by
  show Vec3.mk _ _ _ = _
  simp only [sub_self]
  rfl

end Vec3

theorem sqrt_four : Real.sqrt 4 = 2 := by
  rw [show (4 : ℝ) = 2 ^ 2 by norm_num]
  exact Real.sqrt_sq (by norm_num)

/-- C1: `EdgeConstraint::solve` follows the XPBD update: with
`w = invMass1 + invMass2`, `alpha = compliance / dt^2`, `delta = p2 - p1`,
`distance = |delta|` and `direction = delta / distance`, it computes
`residual = -(distance - rest_length) / (w + alpha)`, subtracts
`direction * residual * invMass1` from body1's accumulator and adds
`direction * residual * invMass2` to body2's.  For bodies at `(0,0,0)` and
`(2,0,0)` with `rest_length = 1`, `compliance = 0` and both inverse masses 1,
one solve call adds `(0.5, 0, 0)` to body1's (zeroed) accumulator and
`(-0.5, 0, 0)` to body2's, and applying the accumulators to the positions
yields separation `1.0`. -/
theorem edge_solve_xpbd_update_and_scenario :
    (∀ (c : EdgeConstraint) (b1 b2 : RigidBodyQueryItem) (dt : Scalar),
      b1.inverse_mass + b2.inverse_mass ≠ 0 →
      (b2.current_position - b1.current_position).length ≠ 0 →
      c.solve b1 b2 dt =
        ({ b1 with accumulated_translation := b1.accumulated_translation -
            ((b2.current_position - b1.current_position) /
                (b2.current_position - b1.current_position).length)
              * (-((b2.current_position - b1.current_position).length - c.rest_length) /
                  (b1.inverse_mass + b2.inverse_mass + c.compliance / (dt * dt)))
              * b1.inverse_mass },
         { b2 with accumulated_translation := b2.accumulated_translation +
            ((b2.current_position - b1.current_position) /
                (b2.current_position - b1.current_position).length)
              * (-((b2.current_position - b1.current_position).length - c.rest_length) /
                  (b1.inverse_mass + b2.inverse_mass + c.compliance / (dt * dt)))
              * b2.inverse_mass }))
    ∧ (edgeScenarioC.solve edgeScenarioB1 edgeScenarioB2 1).1.accumulated_translation
        = ⟨1 / 2, 0, 0⟩
    ∧ (edgeScenarioC.solve edgeScenarioB1 edgeScenarioB2 1).2.accumulated_translation
        = ⟨-(1 / 2), 0, 0⟩
    ∧ Vec3.distance
        (edgeScenarioB1.current_position
          + (edgeScenarioC.solve edgeScenarioB1 edgeScenarioB2 1).1.accumulated_translation)
        (edgeScenarioB2.current_position
          + (edgeScenarioC.solve edgeScenarioB1 edgeScenarioB2 1).2.accumulated_translation)
        = 1 := by
  refine ⟨fun c b1 b2 dt hw hd => ?_, ?_, ?_, ?_⟩
  · simp only [EdgeConstraint.solve, if_neg hw, if_neg hd]
  · simp only [EdgeConstraint.solve, edgeScenarioC, edgeScenarioB1, edgeScenarioB2,
      Vec3.length, Vec3.length_squared, Vec3.dot]
    norm_num [sqrt_four]
    ext <;> norm_num
  · simp only [EdgeConstraint.solve, edgeScenarioC, edgeScenarioB1, edgeScenarioB2,
      Vec3.length, Vec3.length_squared, Vec3.dot]
    norm_num [sqrt_four]
    ext <;> norm_num
  · simp only [EdgeConstraint.solve, edgeScenarioC, edgeScenarioB1, edgeScenarioB2,
      Vec3.distance, Vec3.length, Vec3.length_squared, Vec3.dot]
    norm_num [sqrt_four]

/-- Witness for C1: the general conjunct applied at the concrete scenario,
with both hypotheses discharged by evaluation. -/
theorem edge_solve_xpbd_update_and_scenario_witness :
    (edgeScenarioC.solve edgeScenarioB1 edgeScenarioB2 1).1
      = { edgeScenarioB1 with accumulated_translation := ⟨1 / 2, 0, 0⟩ } := by
  have h := edge_solve_xpbd_update_and_scenario.1 edgeScenarioC edgeScenarioB1 edgeScenarioB2 1
    (by norm_num [edgeScenarioB1, edgeScenarioB2])
    (by simp only [edgeScenarioB1, edgeScenarioB2, Vec3.length, Vec3.length_squared, Vec3.dot]
        norm_num [sqrt_four])
  rw [h]
  simp only [edgeScenarioC, edgeScenarioB1, edgeScenarioB2, Vec3.length, Vec3.length_squared,
    Vec3.dot]
  norm_num [sqrt_four]
  ext <;> norm_num
/-- C2: for every constraint kind, every solve call and every body view whose
inverse mass is zero, that body's accumulated translation is unchanged by the
call: each per-body correction term multiplies by the body's inverse mass, so
the added contribution is the zero vector, and all early-return paths leave
every accumulator untouched. -/
theorem zero_inverse_mass_never_translated :
    (∀ (c : EdgeConstraint) (b1 b2 : RigidBodyQueryItem) (dt : Scalar),
      (b1.inverse_mass = 0 →
        (c.solve b1 b2 dt).1.accumulated_translation = b1.accumulated_translation)
      ∧ (b2.inverse_mass = 0 →
        (c.solve b1 b2 dt).2.accumulated_translation = b2.accumulated_translation))
    ∧ (∀ (c : IsometricBendingConstraint) (b1 b2 b3 b4 : RigidBodyQueryItem) (dt : Scalar),
      (b1.inverse_mass = 0 →
        (c.solve b1 b2 b3 b4 dt).1.accumulated_translation = b1.accumulated_translation)
      ∧ (b2.inverse_mass = 0 →
        (c.solve b1 b2 b3 b4 dt).2.1.accumulated_translation = b2.accumulated_translation)
      ∧ (b3.inverse_mass = 0 →
        (c.solve b1 b2 b3 b4 dt).2.2.1.accumulated_translation = b3.accumulated_translation)
      ∧ (b4.inverse_mass = 0 →
        (c.solve b1 b2 b3 b4 dt).2.2.2.accumulated_translation = b4.accumulated_translation))
    ∧ (∀ (c : VolumeConstraint) (b1 b2 b3 b4 : RigidBodyQueryItem) (dt : Scalar),
      (b1.inverse_mass = 0 →
        (c.solve b1 b2 b3 b4 dt).1.accumulated_translation = b1.accumulated_translation)
      ∧ (b2.inverse_mass = 0 →
        (c.solve b1 b2 b3 b4 dt).2.1.accumulated_translation = b2.accumulated_translation)
      ∧ (b3.inverse_mass = 0 →
        (c.solve b1 b2 b3 b4 dt).2.2.1.accumulated_translation = b3.accumulated_translation)
      ∧ (b4.inverse_mass = 0 →
        (c.solve b1 b2 b3 b4 dt).2.2.2.accumulated_translation = b4.accumulated_translation)) := by
  refine ⟨fun c b1 b2 dt => ⟨fun h => ?_, fun h => ?_⟩,
      fun c b1 b2 b3 b4 dt => ⟨fun h => ?_, fun h => ?_, fun h => ?_, fun h => ?_⟩,
      fun c b1 b2 b3 b4 dt => ⟨fun h => ?_, fun h => ?_, fun h => ?_, fun h => ?_⟩⟩ <;>
    simp only [EdgeConstraint.solve, IsometricBendingConstraint.solve,
      VolumeConstraint.solve] <;>
    repeat' split <;>
    simp [h]

/-- Witness for C2: at concrete bodies of inverse mass zero, one solve call of
each constraint kind leaves the (zeroed) accumulators at zero. -/
theorem zero_inverse_mass_never_translated_witness :
    (edgeScenarioC.solve ⟨⟨1, 2, 3⟩, 0, 0⟩ ⟨⟨4, 5, 6⟩, 0, 0⟩ 1).1.accumulated_translation
        = (0 : Vec3)
    ∧ ((IsometricBendingConstraint.new 0 ⟨0, 0, 0⟩ 1 ⟨1, 0, 0⟩ 2 ⟨1, 1, 0⟩ 3
          ⟨0, 1, 0⟩).solve ⟨⟨0, 0, 0⟩, 0, 0⟩ ⟨⟨1, 0, 0⟩, 0, 0⟩ ⟨⟨1, 1, 0⟩, 0, 0⟩
          ⟨⟨0, 1, 0⟩, 0, 0⟩ 1).2.1.accumulated_translation = (0 : Vec3)
    ∧ (tetraC.solve ⟨⟨0, 0, 0⟩, 0, 0⟩ ⟨⟨1, 0, 0⟩, 0, 0⟩ ⟨⟨0, 1, 0⟩, 0, 0⟩
          ⟨⟨0, 0, 1⟩, 0, 0⟩ 1).2.2.2.accumulated_translation = (0 : Vec3) :=
  ⟨(zero_inverse_mass_never_translated.1 edgeScenarioC ⟨⟨1, 2, 3⟩, 0, 0⟩ ⟨⟨4, 5, 6⟩, 0, 0⟩ 1).1 rfl,
   ((zero_inverse_mass_never_translated.2.1 _ ⟨⟨0, 0, 0⟩, 0, 0⟩ ⟨⟨1, 0, 0⟩, 0, 0⟩
      ⟨⟨1, 1, 0⟩, 0, 0⟩ ⟨⟨0, 1, 0⟩, 0, 0⟩ 1).2.1 rfl),
   ((zero_inverse_mass_never_translated.2.2 tetraC ⟨⟨0, 0, 0⟩, 0, 0⟩ ⟨⟨1, 0, 0⟩, 0, 0⟩
      ⟨⟨0, 1, 0⟩, 0, 0⟩ ⟨⟨0, 0, 1⟩, 0, 0⟩ 1).2.2.2 rfl)⟩

/-- C7: when the two bodies of a distance constraint coincide (`distance == 0`)
and `w = invMass1 + invMass2 > 0`, `EdgeConstraint::solve` falls back to the
positive x axis as the correction direction: with
`residual = rest_length / (w + alpha)`, body1's accumulator changes by
`-(1,0,0) * residual * invMass1` and body2's by `+(1,0,0) * residual *
invMass2`.  In the embedding over the exact reals the call is a total
function producing these values (no panic, no NaN); the `warn!` diagnostic is
a non-fatal log not modelled here. -/
theorem edge_solve_zero_distance_fallback (c : EdgeConstraint)
    (b1 b2 : RigidBodyQueryItem) (dt : Scalar)
    (hpos : b1.current_position = b2.current_position)
    (hw : 0 < b1.inverse_mass + b2.inverse_mass) :
    c.solve b1 b2 dt =
      ({ b1 with accumulated_translation := b1.accumulated_translation -
          Vec3.X * (c.rest_length /
              (b1.inverse_mass + b2.inverse_mass + c.compliance / (dt * dt)))
            * b1.inverse_mass },
       { b2 with accumulated_translation := b2.accumulated_translation +
          Vec3.X * (c.rest_length /
              (b1.inverse_mass + b2.inverse_mass + c.compliance / (dt * dt)))
            * b2.inverse_mass }) := by
  have hw' : b1.inverse_mass + b2.inverse_mass ≠ 0 := ne_of_gt hw
  have hdelta : b2.current_position - b1.current_position = 0 := by
    rw [hpos, Vec3.vsub_self]
  simp only [EdgeConstraint.solve, if_neg hw', hdelta, Vec3.length_zero, if_pos rfl]
  norm_num

/-- Witness for C7: two coincident bodies at `(5,5,5)` with inverse masses 1,
`rest_length = 3`, `compliance = 1`, `dt = 1`: the fallback direction is the
x axis and the correction pushes the bodies apart along it by 1 each. -/
theorem edge_solve_zero_distance_fallback_witness :
    (EdgeConstraint.solve ⟨0, 1, 3, 1⟩ ⟨⟨5, 5, 5⟩, 1, 0⟩ ⟨⟨5, 5, 5⟩, 1, 0⟩ 1).1.accumulated_translation
        = ⟨-1, 0, 0⟩
    ∧ (EdgeConstraint.solve ⟨0, 1, 3, 1⟩ ⟨⟨5, 5, 5⟩, 1, 0⟩ ⟨⟨5, 5, 5⟩, 1, 0⟩ 1).2.accumulated_translation
        = ⟨1, 0, 0⟩ := by
  have h := edge_solve_zero_distance_fallback ⟨0, 1, 3, 1⟩ ⟨⟨5, 5, 5⟩, 1, 0⟩ ⟨⟨5, 5, 5⟩, 1, 0⟩ 1
    rfl (by norm_num)
  rw [h]
  constructor <;> (ext <;> norm_num [Vec3.X])
/-- Swapping the 2nd and 3rd argument of the signed tetrahedron volume negates
it (a determinant column swap). -/
theorem volume_swap (p1 p2 p3 p4 : Vec3) :
    VolumeConstraint.volume p1 p3 p2 p4 = -VolumeConstraint.volume p1 p2 p3 p4 := by
  simp only [VolumeConstraint.volume, Vec3.cross, Vec3.dot, Vec3.sub_x, Vec3.sub_y, Vec3.sub_z]
  ring

/-- C4: if the signed volume of the four construction positions is negative,
`VolumeConstraint::new` swaps the 2nd and 3rd entity identifiers and stores
`rest_volume = volume(p1, p3, p2, p4)`, which is then strictly positive; and
if the signed volume is zero (four coplanar points), the conditional swap does
not fire and construction fails (the `assert!` panics, modelled as `none`). -/
theorem volume_new_swap_and_degenerate_failure (e1 e2 e3 e4 : Entity)
    (p1 p2 p3 p4 : Vec3) :
    (VolumeConstraint.volume p1 p2 p3 p4 < 0 →
      0 < VolumeConstraint.volume p1 p3 p2 p4
      ∧ VolumeConstraint.new e1 p1 e2 p2 e3 p3 e4 p4 =
          some { entity1 := e1, entity2 := e3, entity3 := e2, entity4 := e4,
                 rest_volume := VolumeConstraint.volume p1 p3 p2 p4, compliance := 0 })
    ∧ (VolumeConstraint.volume p1 p2 p3 p4 = 0 →
      VolumeConstraint.new e1 p1 e2 p2 e3 p3 e4 p4 = none) := by
  constructor
  · intro h
    have hpos : 0 < VolumeConstraint.volume p1 p3 p2 p4 := by
      rw [volume_swap]
      linarith
    exact ⟨hpos, by simp only [VolumeConstraint.new, if_pos h, if_pos hpos]⟩
  · intro h
    simp only [VolumeConstraint.new, h]
    norm_num

/-- Witness for C4: the tetrahedron `(0,0,0), (0,1,0), (1,0,0), (0,0,1)` has
signed volume `-1/6`, so construction swaps the 2nd and 3rd identifiers and
stores the positive volume of the swapped order. -/
theorem volume_new_swap_and_degenerate_failure_witness :
    0 < VolumeConstraint.volume ⟨0, 0, 0⟩ ⟨1, 0, 0⟩ ⟨0, 1, 0⟩ ⟨0, 0, 1⟩
    ∧ VolumeConstraint.new 10 ⟨0, 0, 0⟩ 20 ⟨0, 1, 0⟩ 30 ⟨1, 0, 0⟩ 40 ⟨0, 0, 1⟩ =
        some { entity1 := 10, entity2 := 30, entity3 := 20, entity4 := 40,
               rest_volume := VolumeConstraint.volume ⟨0, 0, 0⟩ ⟨1, 0, 0⟩ ⟨0, 1, 0⟩ ⟨0, 0, 1⟩,
               compliance := 0 } :=
  (volume_new_swap_and_degenerate_failure 10 20 30 40
      ⟨0, 0, 0⟩ ⟨0, 1, 0⟩ ⟨1, 0, 0⟩ ⟨0, 0, 1⟩).1
    (by simp only [VolumeConstraint.volume, Vec3.cross, Vec3.dot,
          Vec3.sub_x, Vec3.sub_y, Vec3.sub_z]
        norm_num)
/-- C3 (failing-input evaluation): on the unit tetrahedron `(0,0,0)`,
`(1,0,0)`, `(0,1,0)`, `(0,0,1)` with all inverse masses 1, `compliance = 0`,
`dt = 1` and `rest_volume = 1/12` (half the current volume `1/6`, so the
constraint should shrink the tetrahedron), one `VolumeConstraint::solve` call:
(i) applies the pushes `(-1/12,-1/12,-1/12)`, `(1/12,0,0)`, `(0,0,1/12)`,
`(0,1/12,0)` to bodies 1-4;
(ii) the push applied to body 2 is not
`gradient_2 * residual * invMass_2`, where `gradient_2 = ((p3-p1) x (p4-p1))/6`
is the gradient of `volume(p1,p2,p3,p4)` with respect to body 2's position
and `residual = -(volume - rest_volume)/(w + alpha) = -1/2` (at this input
`w = 1/6` under both the code's and the claim's inverse-mass pairing, since
all inverse masses are 1); the claim prescribes `(-1/12, 0, 0)` for body 2
but the code applies `(1/12, 0, 0)`;
(iii) applying the four accumulators moves the volume to `143/648`, strictly
farther from `rest_volume = 1/12` than the starting volume `1/6`: the solve
step drives the constraint away from its target instead of toward it. -/
theorem volume_solve_gradient_misapplication :
    ((tetraC.solve tetraB1 tetraB2 tetraB3 tetraB4 1).1.accumulated_translation
        = ⟨-(1 / 12), -(1 / 12), -(1 / 12)⟩
      ∧ (tetraC.solve tetraB1 tetraB2 tetraB3 tetraB4 1).2.1.accumulated_translation
        = ⟨1 / 12, 0, 0⟩
      ∧ (tetraC.solve tetraB1 tetraB2 tetraB3 tetraB4 1).2.2.1.accumulated_translation
        = ⟨0, 0, 1 / 12⟩
      ∧ (tetraC.solve tetraB1 tetraB2 tetraB3 tetraB4 1).2.2.2.accumulated_translation
        = ⟨0, 1 / 12, 0⟩)
    ∧ ((tetraB3.current_position - tetraB1.current_position).cross
          (tetraB4.current_position - tetraB1.current_position) / (6 : Scalar))
        * (-(VolumeConstraint.volume tetraB1.current_position tetraB2.current_position
              tetraB3.current_position tetraB4.current_position - tetraC.rest_volume) /
            (1 / 6 + tetraC.compliance / (1 * 1)))
        * tetraB2.inverse_mass
        = ⟨-(1 / 12), 0, 0⟩
    ∧ ((tetraB3.current_position - tetraB1.current_position).cross
          (tetraB4.current_position - tetraB1.current_position) / (6 : Scalar))
        * (-(VolumeConstraint.volume tetraB1.current_position tetraB2.current_position
              tetraB3.current_position tetraB4.current_position - tetraC.rest_volume) /
            (1 / 6 + tetraC.compliance / (1 * 1)))
        * tetraB2.inverse_mass
        ≠ (tetraC.solve tetraB1 tetraB2 tetraB3 tetraB4 1).2.1.accumulated_translation
    ∧ |VolumeConstraint.volume
          (tetraB1.current_position
            + (tetraC.solve tetraB1 tetraB2 tetraB3 tetraB4 1).1.accumulated_translation)
          (tetraB2.current_position
            + (tetraC.solve tetraB1 tetraB2 tetraB3 tetraB4 1).2.1.accumulated_translation)
          (tetraB3.current_position
            + (tetraC.solve tetraB1 tetraB2 tetraB3 tetraB4 1).2.2.1.accumulated_translation)
          (tetraB4.current_position
            + (tetraC.solve tetraB1 tetraB2 tetraB3 tetraB4 1).2.2.2.accumulated_translation)
        - tetraC.rest_volume|
      > |VolumeConstraint.volume tetraB1.current_position tetraB2.current_position
          tetraB3.current_position tetraB4.current_position - tetraC.rest_volume| := by
  have hsolve :
      tetraC.solve tetraB1 tetraB2 tetraB3 tetraB4 1 =
        ({ tetraB1 with accumulated_translation := ⟨-(1 / 12), -(1 / 12), -(1 / 12)⟩ },
         { tetraB2 with accumulated_translation := ⟨1 / 12, 0, 0⟩ },
         { tetraB3 with accumulated_translation := ⟨0, 0, 1 / 12⟩ },
         { tetraB4 with accumulated_translation := ⟨0, 1 / 12, 0⟩ }) := by
    simp only [VolumeConstraint.solve, VolumeConstraint.volume, tetraC, tetraB1, tetraB2,
      tetraB3, tetraB4, Vec3.cross, Vec3.dot, Vec3.length_squared]
    norm_num
    refine ⟨?_, ?_, ?_, ?_⟩ <;> (ext <;> norm_num)
  rw [hsolve]
  refine ⟨⟨rfl, rfl, rfl, rfl⟩, ?_, ?_, ?_⟩
  · simp only [VolumeConstraint.volume, tetraC, tetraB1, tetraB2, tetraB3, tetraB4,
      Vec3.cross, Vec3.dot]
    norm_num
    ext <;> norm_num
  · simp only [VolumeConstraint.volume, tetraC, tetraB1, tetraB2, tetraB3, tetraB4,
      Vec3.cross, Vec3.dot]
    norm_num
    intro hcontra
    have := congrArg Vec3.x hcontra
    simp at this
    norm_num at this
  · simp only [VolumeConstraint.volume, tetraC, tetraB1, tetraB2, tetraB3, tetraB4,
      Vec3.cross, Vec3.dot, Vec3.add_x, Vec3.add_y, Vec3.add_z, Vec3.sub_x, Vec3.sub_y,
      Vec3.sub_z]
    rw [abs_of_pos (by norm_num), abs_of_pos (by norm_num)]
    norm_num
/-- C6: `IsometricBendingConstraint::solve` with `Q = initial_bending_energy`
computes `energy = (1/2) * sum over i,j of Q[i][j] * (p_i . p_j)`
(`calculate_constraint_value`); if `energy < 1e-12` it returns with all
accumulators unchanged; otherwise it computes
`gradient[i] = sum over j of Q[i][j] * p_j` (`calculate_gradient`) and
`sum_normal_grad = sum over i of invMass_i * |gradient[i]|^2`; if that sum is
below `1e-9` (the code tests `|sum_normal_grad| < 1e-9`, equivalent under the
data-model invariant that inverse masses are non-negative, which makes the sum
non-negative) it returns unchanged; otherwise each body i's accumulator
changes by exactly `s * invMass_i * gradient[i] * alpha` with
`s = energy / sum_normal_grad` and `alpha = compliance / dt^2`. -/
theorem bending_solve_formula (c : IsometricBendingConstraint)
    (b1 b2 b3 b4 : RigidBodyQueryItem) (dt energy sng : Scalar) (grad : Fin 4 → Vec3)
    (him1 : 0 ≤ b1.inverse_mass) (him2 : 0 ≤ b2.inverse_mass)
    (him3 : 0 ≤ b3.inverse_mass) (him4 : 0 ≤ b4.inverse_mass)
    (henergy : energy = c.calculate_constraint_value b1.current_position
      b2.current_position b3.current_position b4.current_position)
    (hgrad : grad = c.calculate_gradient b1.current_position b2.current_position
      b3.current_position b4.current_position)
    (hsng : sng = b1.inverse_mass * (grad 0).length_squared
      + b2.inverse_mass * (grad 1).length_squared
      + b3.inverse_mass * (grad 2).length_squared
      + b4.inverse_mass * (grad 3).length_squared) :
    (energy < 1e-12 → c.solve b1 b2 b3 b4 dt = (b1, b2, b3, b4))
    ∧ (¬ energy < 1e-12 → sng < 1e-9 → c.solve b1 b2 b3 b4 dt = (b1, b2, b3, b4))
    ∧ (¬ energy < 1e-12 → ¬ sng < 1e-9 →
        c.solve b1 b2 b3 b4 dt =
          ({ b1 with accumulated_translation := b1.accumulated_translation
              + energy / sng * b1.inverse_mass * grad 0 * (c.compliance / (dt * dt)) },
           { b2 with accumulated_translation := b2.accumulated_translation
              + energy / sng * b2.inverse_mass * grad 1 * (c.compliance / (dt * dt)) },
           { b3 with accumulated_translation := b3.accumulated_translation
              + energy / sng * b3.inverse_mass * grad 2 * (c.compliance / (dt * dt)) },
           { b4 with accumulated_translation := b4.accumulated_translation
              + energy / sng * b4.inverse_mass * grad 3 * (c.compliance / (dt * dt)) })) := by
  subst henergy hgrad hsng
  have hnn : 0 ≤ b1.inverse_mass * ((c.calculate_gradient b1.current_position
        b2.current_position b3.current_position b4.current_position) 0).length_squared
      + b2.inverse_mass * ((c.calculate_gradient b1.current_position b2.current_position
        b3.current_position b4.current_position) 1).length_squared
      + b3.inverse_mass * ((c.calculate_gradient b1.current_position b2.current_position
        b3.current_position b4.current_position) 2).length_squared
      + b4.inverse_mass * ((c.calculate_gradient b1.current_position b2.current_position
        b3.current_position b4.current_position) 3).length_squared :=
    add_nonneg (add_nonneg (add_nonneg
      (mul_nonneg him1 (Vec3.length_squared_nonneg _))
      (mul_nonneg him2 (Vec3.length_squared_nonneg _)))
      (mul_nonneg him3 (Vec3.length_squared_nonneg _)))
      (mul_nonneg him4 (Vec3.length_squared_nonneg _))
  refine ⟨fun he => ?_, fun he hs => ?_, fun he hs => ?_⟩
  · simp only [IsometricBendingConstraint.solve, if_pos he]
  · have habs : |b1.inverse_mass * ((c.calculate_gradient b1.current_position
          b2.current_position b3.current_position b4.current_position) 0).length_squared
        + b2.inverse_mass * ((c.calculate_gradient b1.current_position b2.current_position
          b3.current_position b4.current_position) 1).length_squared
        + b3.inverse_mass * ((c.calculate_gradient b1.current_position b2.current_position
          b3.current_position b4.current_position) 2).length_squared
        + b4.inverse_mass * ((c.calculate_gradient b1.current_position b2.current_position
          b3.current_position b4.current_position) 3).length_squared| < 1e-9 := by
      rw [abs_of_nonneg hnn]
      exact hs
    simp only [IsometricBendingConstraint.solve, if_neg he, if_pos habs]
  · have habs : ¬ |b1.inverse_mass * ((c.calculate_gradient b1.current_position
          b2.current_position b3.current_position b4.current_position) 0).length_squared
        + b2.inverse_mass * ((c.calculate_gradient b1.current_position b2.current_position
          b3.current_position b4.current_position) 1).length_squared
        + b3.inverse_mass * ((c.calculate_gradient b1.current_position b2.current_position
          b3.current_position b4.current_position) 2).length_squared
        + b4.inverse_mass * ((c.calculate_gradient b1.current_position b2.current_position
          b3.current_position b4.current_position) 3).length_squared| < 1e-9 := by
      rw [abs_of_nonneg hnn]
      exact hs
    simp only [IsometricBendingConstraint.solve, if_neg he, if_neg habs]
/-- Witness for C6: at the concrete matrix `bendQ`, body 1 at `(1,0,0)` and
bodies 2-4 at the origin (all inverse masses 1, `compliance = 1`, `dt = 1`):
`energy = 1`, `gradient[0] = (2,0,0)`, the other gradients vanish,
`sum_normal_grad = 4`, `s = 1/4`, `alpha = 1`, so body 1's accumulator gains
`(1/2, 0, 0)` and body 2's stays zero. -/
theorem bending_solve_formula_witness :
    (bendC.solve bendB1 bendB0 bendB0 bendB0 1).1.accumulated_translation = ⟨1 / 2, 0, 0⟩
    ∧ (bendC.solve bendB1 bendB0 bendB0 bendB0 1).2.1.accumulated_translation = (0 : Vec3) := by
  have h := (bending_solve_formula bendC bendB1 bendB0 bendB0 bendB0 1
      (bendC.calculate_constraint_value bendB1.current_position bendB0.current_position
        bendB0.current_position bendB0.current_position)
      (bendB1.inverse_mass * ((bendC.calculate_gradient bendB1.current_position
          bendB0.current_position bendB0.current_position bendB0.current_position)
          0).length_squared
        + bendB0.inverse_mass * ((bendC.calculate_gradient bendB1.current_position
          bendB0.current_position bendB0.current_position bendB0.current_position)
          1).length_squared
        + bendB0.inverse_mass * ((bendC.calculate_gradient bendB1.current_position
          bendB0.current_position bendB0.current_position bendB0.current_position)
          2).length_squared
        + bendB0.inverse_mass * ((bendC.calculate_gradient bendB1.current_position
          bendB0.current_position bendB0.current_position bendB0.current_position)
          3).length_squared)
      (bendC.calculate_gradient bendB1.current_position bendB0.current_position
        bendB0.current_position bendB0.current_position)
      (by norm_num [bendB1]) (by norm_num [bendB0]) (by norm_num [bendB0])
      (by norm_num [bendB0]) rfl rfl rfl).2.2
      (by norm_num [IsometricBendingConstraint.calculate_constraint_value, bendC, bendQ,
            bendB1, bendB0, Fin.sum_univ_four, Vec3.dot])
      (by norm_num [IsometricBendingConstraint.calculate_gradient, bendC, bendQ, bendB1,
            bendB0, Vec3.length_squared, Vec3.dot,
            (by decide : ¬((2 : Fin 4) = 0)), (by decide : ¬((3 : Fin 4) = 0))])
  rw [h]
  constructor
  · simp [IsometricBendingConstraint.calculate_constraint_value,
      IsometricBendingConstraint.calculate_gradient, bendC, bendQ, bendB1, bendB0,
      Fin.sum_univ_four, Vec3.dot, Vec3.length_squared,
      (by decide : ¬((2 : Fin 4) = 0)), (by decide : ¬((3 : Fin 4) = 0))]
    ext <;> norm_num
  · simp [IsometricBendingConstraint.calculate_constraint_value,
      IsometricBendingConstraint.calculate_gradient, bendC, bendQ, bendB1, bendB0,
      Fin.sum_univ_four, Vec3.dot, Vec3.length_squared,
      (by decide : ¬((2 : Fin 4) = 0)), (by decide : ¬((3 : Fin 4) = 0))]
/-- C9 (implicit): for every bending constraint with `compliance == 0` and
every `dt` not equal to zero, `solve` adds exactly the zero vector to each of
the four accumulators on every control path, since every correction is scaled
by `alpha = compliance / dt^2 = 0`; and `IsometricBendingConstraint::new`
defaults `compliance` to `0.0`, so a freshly constructed bending constraint
(with no compliance setter applied) never moves any body. -/
theorem bending_zero_compliance_never_moves :
    (∀ (e1 e2 e3 e4 : Entity) (p1 p2 p3 p4 : Vec3),
      (IsometricBendingConstraint.new e1 p1 e2 p2 e3 p3 e4 p4).compliance = 0)
    ∧ (∀ (c : IsometricBendingConstraint) (b1 b2 b3 b4 : RigidBodyQueryItem) (dt : Scalar),
      c.compliance = 0 → dt ≠ 0 →
        (c.solve b1 b2 b3 b4 dt).1.accumulated_translation = b1.accumulated_translation
        ∧ (c.solve b1 b2 b3 b4 dt).2.1.accumulated_translation = b2.accumulated_translation
        ∧ (c.solve b1 b2 b3 b4 dt).2.2.1.accumulated_translation = b3.accumulated_translation
        ∧ (c.solve b1 b2 b3 b4 dt).2.2.2.accumulated_translation = b4.accumulated_translation) := by
  refine ⟨fun e1 e2 e3 e4 p1 p2 p3 p4 => rfl, fun c b1 b2 b3 b4 dt hc hdt => ?_⟩
  refine ⟨?_, ?_, ?_, ?_⟩ <;>
    (simp only [IsometricBendingConstraint.solve]
     repeat' split) <;>
    simp [hc]

/-- Witness for C9: a freshly constructed bending constraint over the flat
quad `(0,0,0), (1,0,0), (1,1,0), (0,1,0)` has compliance 0 and one solve call
at `dt = 1` leaves the first body's accumulator at zero. -/
theorem bending_zero_compliance_never_moves_witness :
    ((IsometricBendingConstraint.new 0 ⟨0, 0, 0⟩ 1 ⟨1, 0, 0⟩ 2 ⟨1, 1, 0⟩ 3
        ⟨0, 1, 0⟩).solve bendB0 bendB1 ⟨⟨1, 1, 0⟩, 1, 0⟩ ⟨⟨0, 1, 0⟩, 1, 0⟩
        1).1.accumulated_translation = (0 : Vec3) :=
  ((bending_zero_compliance_never_moves.2
      (IsometricBendingConstraint.new 0 ⟨0, 0, 0⟩ 1 ⟨1, 0, 0⟩ 2 ⟨1, 1, 0⟩ 3 ⟨0, 1, 0⟩)
      bendB0 bendB1 ⟨⟨1, 1, 0⟩, 1, 0⟩ ⟨⟨0, 1, 0⟩, 1, 0⟩ 1
      (bending_zero_compliance_never_moves.1 0 1 2 3 ⟨0, 0, 0⟩ ⟨1, 0, 0⟩ ⟨1, 1, 0⟩ ⟨0, 1, 0⟩)
      one_ne_zero).1)
/-- C8: for every constraint kind and every identifier-translation function
`f`, `map_entities` rewrites each stored body identifier in place through `f`
while preserving positional order (slot i afterwards holds the image of the
identifier that was in slot i before), and leaves every other field (rest
quantity, compliance, baked energy matrix) unchanged. -/
theorem map_entities_rewrites_in_place (f : Entity → Entity)
    (ec : EdgeConstraint) (bc : IsometricBendingConstraint) (vc : VolumeConstraint) :
    ((ec.map_entities f).entity1 = f ec.entity1
      ∧ (ec.map_entities f).entity2 = f ec.entity2
      ∧ (ec.map_entities f).rest_length = ec.rest_length
      ∧ (ec.map_entities f).compliance = ec.compliance)
    ∧ ((bc.map_entities f).entity1 = f bc.entity1
      ∧ (bc.map_entities f).entity2 = f bc.entity2
      ∧ (bc.map_entities f).entity3 = f bc.entity3
      ∧ (bc.map_entities f).entity4 = f bc.entity4
      ∧ (bc.map_entities f).initial_bending_energy = bc.initial_bending_energy
      ∧ (bc.map_entities f).compliance = bc.compliance)
    ∧ ((vc.map_entities f).entity1 = f vc.entity1
      ∧ (vc.map_entities f).entity2 = f vc.entity2
      ∧ (vc.map_entities f).entity3 = f vc.entity3
      ∧ (vc.map_entities f).entity4 = f vc.entity4
      ∧ (vc.map_entities f).rest_volume = vc.rest_volume
      ∧ (vc.map_entities f).compliance = vc.compliance) :=
  ⟨⟨rfl, rfl, rfl, rfl⟩, ⟨rfl, rfl, rfl, rfl, rfl, rfl⟩, ⟨rfl, rfl, rfl, rfl, rfl, rfl⟩⟩

/-- C10 (implicit): `EdgeConstraint::new` bakes `rest_length` as the Euclidean
distance of the two construction positions and defaults `compliance` to `0.1`
(a soft constraint), while `VolumeConstraint::new` (when it succeeds) and
`IsometricBendingConstraint::new` default `compliance` to `0.0`; and each
fluent setter (`with_compliance`, `with_rest_length`, `with_rest_volume`)
replaces exactly its one field and leaves the rest of the constraint
unchanged. -/
theorem constructor_defaults_and_fluent_setters :
    (∀ (e1 e2 : Entity) (p1 p2 : Vec3),
      (EdgeConstraint.new e1 p1 e2 p2).rest_length = p1.distance p2
      ∧ (EdgeConstraint.new e1 p1 e2 p2).compliance = 0.1
      ∧ (EdgeConstraint.new e1 p1 e2 p2).entity1 = e1
      ∧ (EdgeConstraint.new e1 p1 e2 p2).entity2 = e2)
    ∧ (∀ (e1 e2 e3 e4 : Entity) (p1 p2 p3 p4 : Vec3) (c : VolumeConstraint),
      VolumeConstraint.new e1 p1 e2 p2 e3 p3 e4 p4 = some c → c.compliance = 0)
    ∧ (∀ (e1 e2 e3 e4 : Entity) (p1 p2 p3 p4 : Vec3),
      (IsometricBendingConstraint.new e1 p1 e2 p2 e3 p3 e4 p4).compliance = 0)
    ∧ (∀ (c : EdgeConstraint) (x : Scalar),
      c.with_compliance x = { c with compliance := x }
      ∧ c.with_rest_length x = { c with rest_length := x })
    ∧ (∀ (c : VolumeConstraint) (x : Scalar),
      c.with_compliance x = { c with compliance := x }
      ∧ c.with_rest_volume x = { c with rest_volume := x })
    ∧ (∀ (c : IsometricBendingConstraint) (x : Scalar),
      c.with_compliance x = { c with compliance := x }) := by
  refine ⟨fun e1 e2 p1 p2 => ⟨rfl, rfl, rfl, rfl⟩, fun e1 e2 e3 e4 p1 p2 p3 p4 c h => ?_,
    fun e1 e2 e3 e4 p1 p2 p3 p4 => rfl, fun c x => ⟨rfl, rfl⟩, fun c x => ⟨rfl, rfl⟩,
    fun c x => rfl⟩
  simp only [VolumeConstraint.new] at h
  split at h
  · split at h
    · cases h
      rfl
    · cases h
  · split at h
    · cases h
      rfl
    · cases h

/-- Witness for C10: construction over the positively oriented unit
tetrahedron succeeds, and the resulting constraint has compliance 0. -/
theorem constructor_defaults_and_fluent_setters_witness :
    ({ entity1 := 0, entity2 := 1, entity3 := 2, entity4 := 3,
       rest_volume := VolumeConstraint.volume ⟨0, 0, 0⟩ ⟨1, 0, 0⟩ ⟨0, 1, 0⟩ ⟨0, 0, 1⟩,
       compliance := 0 } : VolumeConstraint).compliance = 0 :=
  constructor_defaults_and_fluent_setters.2.1 0 1 2 3
    ⟨0, 0, 0⟩ ⟨1, 0, 0⟩ ⟨0, 1, 0⟩ ⟨0, 0, 1⟩ _
    (by simp only [VolumeConstraint.new, VolumeConstraint.volume, Vec3.cross, Vec3.dot,
          Vec3.sub_x, Vec3.sub_y, Vec3.sub_z]
        norm_num)
